import Mathlib

/-!
Shallow embedding of the hackfusion3 pharmacy backend
(src/backend/agents/pharmacy_agent.py, refill_agent.py,
orchestrator_agent.py, pharmacist_orchestrator.py).

Conventions of the embedding:
* The Supabase store is an explicit record of tables (DBState); every
  agent method is a function DBState -> ... -> DBState x result, with
  read-only calls returning the state unchanged, mirroring the fact that
  they issue only select queries.
* Timestamps and dates are natural numbers counting days; the source
  only ever adds day-granularity timedeltas and compares, so this is
  lossless for the modelled logic.
* External collaborators (the Gemini verification call, the insert
  success of the store, the decrement RPC) are passed in as explicit
  oracle arguments, since the core treats them as opaque.
* Human-readable f-strings are abstracted to constructors that carry
  exactly the data interpolated into them.
-/

/-- Row of the medicines table. Display-only columns
(strength, unit_type, price_rec, package_size, description) that the
agent logic never branches on are omitted. -/
structure Medicine where
  id : Nat
  name : String
  stock : Nat
  prescription_required : Bool
deriving DecidableEq, Repr

/-- Row of the patients table (columns the agents read). -/
structure PatientRow where
  id : Nat
  user_id : String
deriving DecidableEq, Repr

/-- Row of the records table (columns the pharmacy agent reads). -/
structure RecordRow where
  patient_id : Nat
  record_type : String
  extracted_text : Option String
deriving DecidableEq, Repr

/-- Row of the orders table. -/
structure OrderRow where
  id : Nat
  patient_id : Nat
  status : String
  total_items : Nat
  channel : String
  finalized_at : Option Nat
deriving DecidableEq, Repr

/-- Row of the order_items table. days_supply is nullable in the store;
create_order_draft always fills it (default 30). -/
structure OrderItemRow where
  order_id : Nat
  medicine_id : Nat
  qty : Nat
  dosage_text : Option String
  frequency_per_day : Option Nat
  days_supply : Option Nat
deriving DecidableEq, Repr

/-- Row of the refill_alerts table. -/
structure RefillAlertRow where
  patient_id : Nat
  medicine_id : Nat
  predicted_runout_date : Nat
  status : String
deriving DecidableEq, Repr

/-- The tables of the backing store that the modelled agents touch,
plus the serial key counter for orders. -/
structure DBState where
  medicines : List Medicine
  patients : List PatientRow
  records : List RecordRow
  orders : List OrderRow
  order_items : List OrderItemRow
  refill_alerts : List RefillAlertRow
  nextOrderId : Nat
deriving DecidableEq, Repr

/-- Python truthiness of an optional integer (None and 0 are falsy). -/
def truthyNat : Option Nat → Bool
  | none => false
  | some n => n != 0

/-- Python truthiness of an optional string (None and the empty string
are falsy). -/
def truthyStr : Option String → Bool
  | none => false
  | some t => t != ""

/-- Case-insensitive containment test, modelling the
ilike("name", "%query%") filter of search_medicines (lower-casing both
sides character by character and testing substring containment). -/
def ilikeContains (name query : String) : Bool :=
  decide (query.data.map Char.toLower <:+: name.data.map Char.toLower)

/-- Insertion into a list sorted by medicine name, for the
order("name") clause of search_medicines. -/
def insertByName (m : Medicine) : List Medicine → List Medicine
  | [] => [m]
  | x :: xs => if m.name ≤ x.name then m :: x :: xs else x :: insertByName m xs

/-- Sort by medicine name (order("name") clause). -/
def sortByName (l : List Medicine) : List Medicine :=
  l.foldr insertByName []

/-- PharmacyAgent.search_medicines: select from medicines filtered with
ilike %query%, ordered by name, limited. Read-only. -/
def search_medicines (s : DBState) (query : String) (limit : Nat) : List Medicine :=
  (sortByName (s.medicines.filter (fun m => ilikeContains m.name query))).take limit

/-- PharmacyAgent._resolve_patient_id: patients.user_id to patients.id. -/
def resolve_patient_id (s : DBState) (user_id : String) : Option Nat :=
  (s.patients.find? (fun p => p.user_id == user_id)).map (fun p => p.id)

/-- PharmacyAgent._get_patient_prescriptions: extracted_text of this
patient prescription records, keeping only truthy (non-empty) texts. -/
def get_patient_prescriptions (s : DBState) (patient_id : Nat) : List String :=
  (s.records.filter
      (fun r => r.patient_id == patient_id && r.record_type == "prescription")).filterMap
    (fun r => r.extracted_text.bind (fun t => if t == "" then none else some t))

/-- Shape of the JSON object that verify_prescription returns. qty is
optional because the parsed JSON may lack the key (the caller reads it
with dict.get and a default). -/
structure VerifyResult where
  verified : Bool
  qty : Option Nat
  frequency_per_day : Option Nat
  dosage_text : Option String
deriving DecidableEq, Repr

/-- PharmacyAgent.verify_prescription: if the patient has no
prescription records the unverified default is returned without calling
the external parser; otherwise the (opaque, external) Gemini parse
result is returned. The oracle argument stands for that external call;
a Gemini failure is the oracle returning the same unverified default. -/
def verify_prescription (s : DBState) (patient_id : Nat)
    (oracle : VerifyResult) : VerifyResult :=
  if (get_patient_prescriptions s patient_id).isEmpty then
    ⟨false, some 0, none, none⟩
  else oracle

/-- One element of the items argument of create_order_draft. -/
structure DraftItem where
  medicine_id : Nat
  qty : Nat
  frequency_per_day : Option Nat
  dosage_text : Option String
  days_supply : Option Nat
deriving DecidableEq, Repr

/-- Result of create_order_draft. itemInsertRaised models the
uncaught store exception that propagates when the order_items insert
fails after the order row was already inserted. -/
inductive DraftOut where
  | ok (order_id : Nat)
  | orderInsertFailed
  | itemInsertRaised (order_id : Nat)
deriving DecidableEq, Repr

/-- PharmacyAgent.create_order_draft. The two Bool arguments are the
success of the two store inserts (external collaborator behaviour).
When the order insert fails the method returns a structured failure;
when the item insert fails the exception is not caught, so the already
inserted pending order row stays behind and no item rows exist. -/
def create_order_draft (s : DBState) (patient_id : Nat) (items : List DraftItem)
    (channel : String) (orderInsertOk itemInsertOk : Bool) : DBState × DraftOut :=
  if !orderInsertOk then (s, .orderInsertFailed)
  else
    let oid := s.nextOrderId
    let s1 : DBState :=
      { s with
        orders := s.orders ++ [⟨oid, patient_id, "pending", items.length, channel, none⟩]
        nextOrderId := oid + 1 }
    if !itemInsertOk then (s1, .itemInsertRaised oid)
    else
      let rows := items.map (fun it =>
        (⟨oid, it.medicine_id, it.qty, it.dosage_text, it.frequency_per_day,
          some (it.days_supply.getD 30)⟩ : OrderItemRow))
      ({ s1 with order_items := s1.order_items ++ rows }, .ok oid)

/-- Rows of order_items belonging to one order (the nested
order_items(...) part of the finalize and refill selects). -/
def itemsOf (s : DBState) (order_id : Nat) : List OrderItemRow :=
  s.order_items.filter (fun it => it.order_id == order_id)

/-- The medicines(...) join nested inside an order_items select.
Returns none when some item has a dangling medicine reference, in which
case the Python source would crash on a null join. -/
def joinItems (s : DBState) (order_id : Nat) : Option (List (OrderItemRow × Medicine)) :=
  (itemsOf s order_id).mapM
    (fun it => (s.medicines.find? (fun m => m.id == it.medicine_id)).map (fun m => (it, m)))

/-- Modelled from the spec: the Record Store atomic-decrement remote
procedure (rpc decrement_medicine_stock), whose SQL body is not part of
src/. Section 6 lists it as the single decrement-by-amount operation
and section 3 requires stock to stay non-negative, which Nat
subtraction captures. -/
def decrementStock (s : DBState) (medicine_id qty : Nat) : DBState :=
  { s with
    medicines := s.medicines.map (fun m =>
      if m.id == medicine_id then { m with stock := m.stock - qty } else m) }

/-- Result of finalize_order. failed carries the problems list; each
problem abstracts the f-string "Insufficient stock for NAME
(available: STOCK)" to the pair (name, stock) interpolated into it.
fulfilled carries the (name, qty) pairs of the fulfilled list. -/
inductive FinalizeOut where
  | orderNotFound
  | joinCrashed
  | failed (problems : List (String × Nat))
  | fulfilled (items : List (String × Nat))
deriving DecidableEq, Repr

/-- PharmacyAgent.finalize_order: re-check stock of every item; on any
shortfall return failed with the available quantities and leave the
store untouched; otherwise set the order to fulfilled with a finalize
timestamp and then run the decrement RPC per item. decrementOk models
whether the (try/except guarded) RPC calls succeed; a failing RPC is
only logged and never rolls the order back. -/
def finalize_order (s : DBState) (order_id : Nat) (now : Nat)
    (decrementOk : Bool) : DBState × FinalizeOut :=
  match s.orders.find? (fun o => o.id == order_id) with
  | none => (s, .orderNotFound)
  | some _ =>
    match joinItems s order_id with
    | none => (s, .joinCrashed)
    | some l =>
      let problems := (l.filter (fun p => p.2.stock < p.1.qty)).map
        (fun p => (p.2.name, p.2.stock))
      if !problems.isEmpty then (s, .failed problems)
      else
        let s1 : DBState :=
          { s with
            orders := s.orders.map (fun o =>
              if o.id == order_id then
                { o with status := "fulfilled", finalized_at := some now }
              else o) }
        let s2 := if decrementOk then
            l.foldl (fun st p => decrementStock st p.1.medicine_id p.1.qty) s1
          else s1
        (s2, .fulfilled (l.map (fun p => (p.2.name, p.1.qty))))

/-- Merge of the caller-supplied frequency with the parsed prescription:
the parsed value is taken only when the context one is falsy and the
parsed one truthy. -/
def mergedFreq (ctx : Option Nat) (vr : VerifyResult) : Option Nat :=
  if !truthyNat ctx && truthyNat vr.frequency_per_day then vr.frequency_per_day else ctx

/-- Merge of the caller-supplied dosage text with the parsed one. -/
def mergedDosage (ctx : Option String) (vr : VerifyResult) : Option String :=
  if !truthyStr ctx && truthyStr vr.dosage_text then vr.dosage_text else ctx

/-- Outcome of the validation prefix of the order action of
PharmacyAgent.run (everything before create_order_draft): patient
resolution, medicine lookup, stock check, prescription verification and
the missing-information check. -/
inductive ValidateOut where
  | patientNotFound
  | medicineNotFound
  | insufficientStock (name : String) (available : Nat)
  | needsPrescription (name : String)
  | missingInfo (name : String) (missingFreq missingDosage : Bool)
  | ok (patient_id : Nat) (med : Medicine) (qty : Nat)
      (freq : Option Nat) (dosage : Option String)
deriving DecidableEq, Repr

/-- Validation prefix of the order action of PharmacyAgent.run
(source lines 217 to 292). Performs only select queries, so every
branch returns the state unchanged. On success it carries the medicine,
the quantity to draft (replaced by the parsed prescription quantity for
prescription-required medicines) and the merged frequency and dosage. -/
def run_validate (s : DBState) (user_id : String) (query : String) (qtyReq : Nat)
    (freqCtx : Option Nat) (dosageCtx : Option String)
    (oracle : VerifyResult) : DBState × ValidateOut :=
  match resolve_patient_id s user_id with
  | none => (s, .patientNotFound)
  | some pid =>
    match (search_medicines s query 1).head? with
    | none => (s, .medicineNotFound)
    | some med =>
      if med.stock < qtyReq then (s, .insufficientStock med.name med.stock)
      else
        if med.prescription_required then
          let vr := verify_prescription s pid oracle
          if !vr.verified then (s, .needsPrescription med.name)
          else
            let qty := vr.qty.getD qtyReq
            let freq := mergedFreq freqCtx vr
            let dosage := mergedDosage dosageCtx vr
            if !truthyNat freq || !truthyStr dosage then
              (s, .missingInfo med.name (!truthyNat freq) (!truthyStr dosage))
            else (s, .ok pid med qty freq dosage)
        else (s, .ok pid med qtyReq freqCtx dosageCtx)

/-- Structured data field of the AgentResult of the order action. -/
inductive RunData where
  | noData
  | needsPrescriptionData (medicine : String)
  | finalizeData (f : FinalizeOut) (order_id : Nat)
deriving DecidableEq, Repr

/-- Message of the AgentResult, abstracting each f-string of the
source to a constructor carrying the interpolated data.
raisedStoreError stands for the uncaught item-insert exception that
escapes run entirely. -/
inductive RunMsg where
  | patientNotFoundMsg
  | medicineNotFoundMsg (query : String)
  | insufficientStockMsg (name : String) (available : Nat)
  | needsPrescriptionMsg (name : String)
  | missingInfoMsg (name : String) (missingFreq missingDosage : Bool)
  | draftFailedMsg
  | raisedStoreError
  | notFinalisedMsg
  | orderPlacedMsg (qty : Nat) (name : String) (order_id : Nat)
deriving DecidableEq, Repr

/-- AgentResult of base_agent.py restricted to the fields the order
action populates. -/
structure AgentResult where
  success : Bool
  data : RunData
  msg : RunMsg
deriving DecidableEq, Repr

/-- The order action of PharmacyAgent.run: validate, draft, finalize.
The oracle and the three Bool arguments model the external
collaborators (Gemini parse, the two inserts, the decrement RPC). -/
def run_order (s : DBState) (user_id : String) (query : String) (qtyReq : Nat)
    (freqCtx : Option Nat) (dosageCtx : Option String) (oracle : VerifyResult)
    (orderInsertOk itemInsertOk decrementOk : Bool) (now : Nat) :
    DBState × AgentResult :=
  match run_validate s user_id query qtyReq freqCtx dosageCtx oracle with
  | (s0, .patientNotFound) => (s0, ⟨false, .noData, .patientNotFoundMsg⟩)
  | (s0, .medicineNotFound) => (s0, ⟨false, .noData, .medicineNotFoundMsg query⟩)
  | (s0, .insufficientStock name avail) =>
      (s0, ⟨false, .noData, .insufficientStockMsg name avail⟩)
  | (s0, .needsPrescription name) =>
      (s0, ⟨false, .needsPrescriptionData name, .needsPrescriptionMsg name⟩)
  | (s0, .missingInfo name mf md) =>
      (s0, ⟨false, .noData, .missingInfoMsg name mf md⟩)
  | (s0, .ok pid med qty freq dosage) =>
    match create_order_draft s0 pid [⟨med.id, qty, freq, dosage, none⟩]
        "agent_chat" orderInsertOk itemInsertOk with
    | (s1, .orderInsertFailed) => (s1, ⟨false, .noData, .draftFailedMsg⟩)
    | (s1, .itemInsertRaised _) => (s1, ⟨false, .noData, .raisedStoreError⟩)
    | (s1, .ok oid) =>
      match finalize_order s1 oid now decrementOk with
      | (s2, .fulfilled its) =>
          (s2, ⟨true, .finalizeData (.fulfilled its) oid, .orderPlacedMsg qty med.name oid⟩)
      | (s2, f) => (s2, ⟨false, .finalizeData f oid, .notFinalisedMsg⟩)

/-- Python expression x or 30 on an optional integer: None and 0 both
fall back to 30 (days_supply handling of the refill agent). -/
def pyOrThirty : Option Nat → Nat
  | none => 30
  | some 0 => 30
  | some d => d

/-- One refill candidate dict produced by get_refill_candidates. -/
structure RefillCandidate where
  medicine_id : Nat
  medicine_name : String
  runout_date : Nat
  days_left : Nat
  current_stock : Nat
deriving DecidableEq, Repr

/-- One item step of the candidate scan of
RefillAgent.get_refill_candidates. The seen set (first component of the
accumulator) is extended before the horizon test, exactly as in the
source, so an out-of-window occurrence also shadows later ones. Items
with a dangling medicine reference are skipped here; on such rows the
Python source would crash on the null join, and no claim exercises
them. -/
def refillStep (s : DBState) (now threshold fin : Nat)
    (acc : List String × List RefillCandidate) (it : OrderItemRow) :
    List String × List RefillCandidate :=
  match s.medicines.find? (fun m => m.id == it.medicine_id) with
  | none => acc
  | some med =>
    if acc.1.contains med.name then acc
    else
      let seen := acc.1 ++ [med.name]
      let ds := pyOrThirty it.days_supply
      let runout := fin + ds
      if now ≤ runout ∧ runout ≤ threshold then
        (seen, acc.2 ++ [⟨it.medicine_id, med.name, runout, runout - now, med.stock⟩])
      else (seen, acc.2)

/-- RefillAgent.get_refill_candidates: select this patients orders with
status "finalized" (note: the order-transaction engine writes
"fulfilled", not "finalized"), skip rows without a finalize timestamp,
and scan their items with a medicine-name seen set. The select has no
order clause, so the scan order is the stored row order. Read-only. -/
def get_refill_candidates (s : DBState) (patient_id : Nat)
    (days_ahead : Nat) (now : Nat) : List RefillCandidate :=
  let threshold := now + days_ahead
  ((s.orders.filter (fun o => o.patient_id == patient_id && o.status == "finalized")).foldl
    (fun acc o =>
      match o.finalized_at with
      | none => acc
      | some fin => (itemsOf s o.id).foldl (refillStep s now threshold fin) acc)
    ([], [])).2

/-- RefillAgent.create_refill_alert: append-only insert of a pending
alert row. -/
def create_refill_alert (s : DBState) (patient_id medicine_id runout_date : Nat) :
    DBState :=
  { s with refill_alerts :=
      s.refill_alerts ++ [⟨patient_id, medicine_id, runout_date, "pending"⟩] }

/-- Outcome of RefillAgent.run. -/
inductive RefillOut where
  | patientNotFoundMsg
  | allStockedMsg
  | runningLowMsg (candidates : List RefillCandidate)
deriving DecidableEq, Repr

/-- RefillAgent.run: resolve the patient, compute the candidates, then
insert one alert per candidate (every modelled candidate carries a
medicine_id, matching the source guard). -/
def refill_run (s : DBState) (user_id : String) (days_ahead : Nat) (now : Nat) :
    DBState × Bool × RefillOut :=
  match resolve_patient_id s user_id with
  | none => (s, false, .patientNotFoundMsg)
  | some pid =>
    let cands := get_refill_candidates s pid days_ahead now
    if cands.isEmpty then (s, true, .allStockedMsg)
    else
      let s1 := cands.foldl
        (fun st c => create_refill_alert st pid c.medicine_id c.runout_date) s
      (s1, true, .runningLowMsg cands)

/-- One message of a conversation history list. -/
structure HistMsg where
  role : String
  content : String
deriving DecidableEq, Repr

/-- OrchestratorAgent.MAX_HISTORY_TURNS (same value in
PharmacistOrchestratorAgent). -/
def MAX_HISTORY_TURNS : Nat := 10

/-- OrchestratorAgent._append_history on the per-user list (the
PharmacistOrchestratorAgent version is identical): append, then keep
only the last MAX_HISTORY_TURNS * 2 messages (the Python slice
[-max_msgs:]) when the bound is exceeded. -/
def append_history (h : List HistMsg) (role content : String) : List HistMsg :=
  let h2 := h ++ [⟨role, content⟩]
  let maxMsgs := MAX_HISTORY_TURNS * 2
  if maxMsgs < h2.length then h2.drop (h2.length - maxMsgs) else h2

/-- The _sessions dict: caller id to history list, defaulting to []. -/
def Sessions : Type := String → List HistMsg

/-- append_history lifted to the _sessions dict of one orchestrator. -/
def append_sessions (ss : Sessions) (user_id role content : String) : Sessions :=
  fun u => if u == user_id then append_history (ss u) role content else ss u

/-- A whole run of appends against the _sessions dict, starting from
the empty dict of a fresh orchestrator. -/
def run_appends (ops : List (String × HistMsg)) : Sessions :=
  ops.foldl (fun ss p => append_sessions ss p.1 p.2.role p.2.content) (fun _ => [])

/-- The last n elements of a list, in order. -/
def lastN (n : Nat) (l : List α) : List α :=
  l.drop (l.length - n)

/-- A function-call request found in a decision-oracle response
(part.function_call of the Gemini reply). -/
structure ToolCall where
  name : String
deriving DecidableEq, Repr

/-- One decision-oracle response: an optional capability request
(absent also when the reply has no parts at all, which the source turns
into the same break) and the optional text (response.text when the
reply has one). -/
structure OracleResponse where
  functionCall : Option ToolCall
  text : Option String
deriving DecidableEq, Repr

/-- One entry of the steps trace of the orchestrator run. -/
structure StepEntry where
  agent : String
  message : String
  success : Bool
deriving DecidableEq, Repr

/-- Value of one field of the dict returned by OrchestratorAgent.run,
so that the presence and absence of keys can be stated. -/
inductive RVal where
  | b (v : Bool)
  | s (v : String)
  | strList (v : List String)
  | stepList (v : List StepEntry)
deriving DecidableEq, Repr

/-- Iteration cap of both orchestrator dispatch loops (max_iter = 6 in
OrchestratorAgent.run, the literal range(6) in
PharmacistOrchestratorAgent.run). -/
def MAX_ITER : Nat := 6

/-- The for-loop of OrchestratorAgent.run. The oracle argument gives
the decision-oracle response after n messages have been sent to it
(n = 0 is the reply to the initial prompt); dispatch gives the
structured result of the n-th capability invocation, the sub-agents
being opaque collaborators from the point of view of the loop. Returns
the index of the response held when the loop ends together with the
recorded steps; the loop sends one message per dispatched capability,
so the final index equals the number of invocations. -/
def dispatch_loop (oracle : Nat → OracleResponse) (dispatch : Nat → ToolCall → StepEntry) :
    Nat → Nat → Nat × List StepEntry
  | 0, idx => (idx, [])
  | fuel + 1, idx =>
    match (oracle idx).functionCall with
    | none => (idx, [])
    | some tc =>
      let res := dispatch idx tc
      let rest := dispatch_loop oracle dispatch fuel (idx + 1)
      (rest.1, res :: rest.2)

/-- Fallback final text of OrchestratorAgent.run when the last response
carries no text. -/
def noTextFallback : String := "I was not able to complete that request."

/-- OrchestratorAgent.run: run the dispatch loop from the initial
response, build the returned dict (success, response, agents_used,
steps - and no other key), and append the user message and the final
text to the conversation memory. list(set(...)) on agents_used is
modelled by order-preserving duplicate removal, one admissible
realisation of the unordered Python set. -/
def orchestrator_run (oracle : Nat → OracleResponse)
    (dispatch : Nat → ToolCall → StepEntry) (ss : Sessions)
    (user_id message : String) : Sessions × List (String × RVal) :=
  let r := dispatch_loop oracle dispatch MAX_ITER 0
  let finalText := (oracle r.1).text.getD noTextFallback
  let ss1 := append_sessions ss user_id "user" message
  let ss2 := append_sessions ss1 user_id "assistant" finalText
  (ss2,
    [("success", .b true),
     ("response", .s finalText),
     ("agents_used", .strList ((r.2.map (fun e => e.agent)).eraseDups)),
     ("steps", .stepList r.2)])

/-! Helper lemmas shared by several claims. -/

theorem lastN_length_le (n : Nat) (l : List α) : (lastN n l).length ≤ n := by
  simp only [lastN, List.length_drop]
  omega

theorem lastN_of_le {n : Nat} {l : List α} (h : l.length ≤ n) : lastN n l = l := by
  simp only [lastN]
  have : l.length - n = 0 := by omega
  simp [this]

theorem append_history_lastN (L : List HistMsg) (role content : String) :
    append_history (lastN (MAX_HISTORY_TURNS * 2) L) role content
      = lastN (MAX_HISTORY_TURNS * 2) (L ++ [⟨role, content⟩]) := by
  simp only [append_history, MAX_HISTORY_TURNS, lastN]
  by_cases hL : L.length ≤ 19
  · have h0 : L.length - 10 * 2 = 0 := by omega
    rw [h0, List.drop_zero]
    have hc : ¬ (10 * 2 < (L ++ [(⟨role, content⟩ : HistMsg)]).length) := by
      simp; omega
    rw [if_neg hc]
    have h2 : (L ++ [(⟨role, content⟩ : HistMsg)]).length - 10 * 2 = 0 := by
      simp; omega
    rw [h2, List.drop_zero]
  · have hge : 20 ≤ L.length := by omega
    have hdl : (L.drop (L.length - 10 * 2)).length = 20 := by
      simp only [List.length_drop]; omega
    have hlen : (L.drop (L.length - 10 * 2) ++ [(⟨role, content⟩ : HistMsg)]).length = 21 := by
      simp only [List.length_append, List.length_cons, List.length_nil, hdl]
    have hc : 10 * 2 < (L.drop (L.length - 10 * 2) ++ [(⟨role, content⟩ : HistMsg)]).length := by
      rw [hlen]; norm_num
    rw [if_pos hc, hlen]
    have h1 : (21 : Nat) - 10 * 2 = 1 := by norm_num
    rw [h1]
    have h3 : (L ++ [(⟨role, content⟩ : HistMsg)]).length - 10 * 2 = L.length - 19 := by
      simp only [List.length_append, List.length_cons, List.length_nil]
      omega
    rw [h3]
    rw [List.drop_append_of_le_length (by rw [hdl]; norm_num)]
    rw [List.drop_drop]
    rw [List.drop_append_of_le_length (by omega)]
    congr 2
    omega

theorem run_appends_snoc (ops : List (String × HistMsg)) (op : String × HistMsg) :
    run_appends (ops ++ [op])
      = append_sessions (run_appends ops) op.1 op.2.role op.2.content := by
  simp [run_appends, List.foldl_append]

/-- C5: for every caller and every sequence of appends against the
per-user conversation memory, the history held for that caller after
the appends is exactly the last 2 * MAX_HISTORY_TURNS messages appended
for that caller, in order (FIFO eviction of the oldest), and in
particular never exceeds 2 * MAX_HISTORY_TURNS = 20 entries. -/
theorem C5_history_bounded_fifo (ops : List (String × HistMsg)) (user : String) :
    run_appends ops user
        = lastN (MAX_HISTORY_TURNS * 2)
            ((ops.filter (fun p => p.1 == user)).map (fun p => p.2)) ∧
    (run_appends ops user).length ≤ MAX_HISTORY_TURNS * 2 := by
  induction ops using List.reverseRecOn with
  | nil =>
    constructor
    · simp [run_appends, lastN]
    · simp [run_appends, MAX_HISTORY_TURNS]
  | append_singleton ops op ih =>
    have hmain : run_appends (ops ++ [op]) user
        = lastN (MAX_HISTORY_TURNS * 2)
            (((ops ++ [op]).filter (fun p => p.1 == user)).map (fun p => p.2)) := by
      rw [run_appends_snoc]
      by_cases hu : op.1 = user
      · have hbeq : (user == op.1) = true := by simp [hu]
        simp only [append_sessions, hbeq, if_pos]
        rw [ih.1, append_history_lastN]
        have : (ops ++ [op]).filter (fun p => p.1 == user)
            = ops.filter (fun p => p.1 == user) ++ [op] := by
          simp [List.filter_append, hu]
        rw [this, List.map_append]
        rfl
      · have hbeq : (user == op.1) = false := by
          simp only [beq_eq_false_iff_ne, ne_eq]
          exact fun h => hu h.symm
        simp only [append_sessions, hbeq, Bool.false_eq_true, if_false]
        rw [ih.1]
        have : (ops ++ [op]).filter (fun p => p.1 == user)
            = ops.filter (fun p => p.1 == user) := by
          simp [List.filter_append]
          intro h
          exact absurd h hu
        rw [this]
    refine ⟨hmain, ?_⟩
    rw [hmain]
    exact lastN_length_le _ _

/-- C9: the validation prefix of the order action performs no mutation
of the store: invoking it twice in succession leaves the state exactly
as it was, both invocations return identical outcomes, and the stock
observed by the medicine lookup is the same both times. -/
theorem C9_validate_read_only (s : DBState) (user query : String) (qtyReq : Nat)
    (freqCtx : Option Nat) (dosageCtx : Option String) (oracle : VerifyResult) :
    (run_validate s user query qtyReq freqCtx dosageCtx oracle).1 = s ∧
    run_validate (run_validate s user query qtyReq freqCtx dosageCtx oracle).1
        user query qtyReq freqCtx dosageCtx oracle
      = run_validate s user query qtyReq freqCtx dosageCtx oracle ∧
    (search_medicines (run_validate s user query qtyReq freqCtx dosageCtx oracle).1
        query 1).map (fun m => m.stock)
      = (search_medicines s query 1).map (fun m => m.stock) := by
  have hfst : (run_validate s user query qtyReq freqCtx dosageCtx oracle).1 = s := by
    unfold run_validate
    repeat' first
      | rfl
      | split
      | dsimp only
  refine ⟨hfst, ?_, ?_⟩
  · rw [hfst]
  · rw [hfst]

theorem dispatch_loop_length_le (oracle : Nat → OracleResponse)
    (dispatch : Nat → ToolCall → StepEntry) (fuel idx : Nat) :
    (dispatch_loop oracle dispatch fuel idx).2.length ≤ fuel := by
  induction fuel generalizing idx with
  | zero => simp [dispatch_loop]
  | succ n ih =>
    simp only [dispatch_loop]
    cases (oracle idx).functionCall with
    | none => simp
    | some tc =>
      simp only [List.length_cons]
      exact Nat.succ_le_succ (ih (idx + 1))

theorem dispatch_loop_final_idx (oracle : Nat → OracleResponse)
    (dispatch : Nat → ToolCall → StepEntry) (fuel idx : Nat) :
    (dispatch_loop oracle dispatch fuel idx).1
      = idx + (dispatch_loop oracle dispatch fuel idx).2.length := by
  induction fuel generalizing idx with
  | zero => simp [dispatch_loop]
  | succ n ih =>
    simp only [dispatch_loop]
    cases (oracle idx).functionCall with
    | none => simp
    | some tc =>
      simp only [List.length_cons]
      rw [ih (idx + 1)]
      omega

/-- C4 (amended): every dispatch-loop run performs at most MAX_ITER = 6
capability invocations, and a run always returns the text the oracle
last produced (after as many oracle messages as there were
invocations); but the returned dict carries no truncated key at all, so
forced termination at the cap is not flagged in the returned outcome. -/
theorem C4_cap_and_no_truncated_flag (oracle : Nat → OracleResponse)
    (dispatch : Nat → ToolCall → StepEntry) (ss : Sessions)
    (user_id message : String) :
    ∃ steps : List StepEntry,
      (orchestrator_run oracle dispatch ss user_id message).2.lookup "steps"
          = some (.stepList steps) ∧
      steps.length ≤ MAX_ITER ∧
      (orchestrator_run oracle dispatch ss user_id message).2.lookup "truncated" = none ∧
      (orchestrator_run oracle dispatch ss user_id message).2.lookup "response"
          = some (.s ((oracle steps.length).text.getD noTextFallback)) := by
  refine ⟨(dispatch_loop oracle dispatch MAX_ITER 0).2, ?_, ?_, ?_, ?_⟩
  · rfl
  · exact dispatch_loop_length_le oracle dispatch MAX_ITER 0
  · rfl
  · have h := dispatch_loop_final_idx oracle dispatch MAX_ITER 0
    rw [Nat.zero_add] at h
    rw [← h]
    rfl

/-- Decision oracle that requests a capability at every turn, never
terminating on its own (used to exercise the iteration cap). -/
def capOracle : Nat → OracleResponse :=
  fun _ => ⟨some ⟨"call_refill_agent"⟩, some "partial answer"⟩

/-- Capability results fed back to the oracle in the cap scenario. -/
def capDispatch : Nat → ToolCall → StepEntry :=
  fun _ _ => ⟨"refill_agent", "checked", true⟩

/-- C4 counterexample: a run that reaches the cap (six invocations are
recorded in the trace) returns a dict with no truncated key, so the
outcome is not marked truncated=true as the claim requires. -/
theorem C4_counterexample_no_truncated_key :
    (orchestrator_run capOracle capDispatch (fun _ => []) "u1" "hi").2.lookup "steps"
        = some (.stepList (List.replicate 6 ⟨"refill_agent", "checked", true⟩)) ∧
    (orchestrator_run capOracle capDispatch (fun _ => []) "u1" "hi").2.lookup "truncated"
        = none := by
  constructor
  · rfl
  · rfl

theorem find?_append_right {α} (p : α → Bool) (L l2 : List α)
    (h : ∀ a ∈ L, ¬ p a) : (L ++ l2).find? p = l2.find? p := by
  rw [List.find?_append, List.find?_eq_none.mpr h, Option.none_or]

theorem filter_append_left_nil {α} (p : α → Bool) (L l2 : List α)
    (h : ∀ a ∈ L, ¬ p a) : (L ++ l2).filter p = l2.filter p := by
  rw [List.filter_append, List.filter_eq_nil_iff.mpr h, List.nil_append]

theorem map_if_id {α} (f : α → α) (p : α → Bool) (L : List α)
    (h : ∀ a ∈ L, ¬ p a) : L.map (fun a => if p a then f a else a) = L := by
  induction L with
  | nil => rfl
  | cons a t ih =>
    simp only [List.map_cons]
    rw [if_neg (h a (List.mem_cons_self a t))]
    rw [ih (fun x hx => h x (List.mem_cons_of_mem a hx))]

theorem find?_map_decrement (l : List Medicine) (mid q : Nat) (med : Medicine)
    (h : l.find? (fun m => m.id == mid) = some med) :
    (l.map (fun m => if m.id == mid then { m with stock := m.stock - q } else m)).find?
        (fun m => m.id == mid)
      = some { med with stock := med.stock - q } := by
  induction l with
  | nil => simp at h
  | cons a t ih =>
    cases hb : (a.id == mid) with
    | true =>
      have hhead : (a :: t).find? (fun m => m.id == mid) = some a := by
        simp [List.find?_cons, hb]
      rw [hhead] at h
      injection h with h
      subst h
      simp only [List.map_cons]
      rw [if_pos hb]
      rw [List.find?_cons_of_pos]
      exact hb
    | false =>
      have hhead : (a :: t).find? (fun m => m.id == mid)
          = t.find? (fun m => m.id == mid) := by
        simp [List.find?_cons, hb]
      rw [hhead] at h
      simp only [List.map_cons]
      rw [if_neg (show ¬ ((a.id == mid) = true) by simp [hb])]
      rw [List.find?_cons_of_neg]
      · exact ih h
      · simp [hb]

/-- C2: if at finalize time some item of the order asks for more than
the current stock of its medicine, finalize_order leaves the store
completely untouched (in particular it never attempts a stock
decrement and never writes status fulfilled), the order row keeps its
pending status, and the returned failure carries the exact available
stock of the failing medicine. -/
theorem C2_finalize_insufficient_stock (s : DBState) (oid now : Nat) (dOk : Bool)
    (o : OrderRow) (l : List (OrderItemRow × Medicine)) (it : OrderItemRow) (m : Medicine)
    (ho : s.orders.find? (fun x => x.id == oid) = some o)
    (hstatus : o.status = "pending")
    (hj : joinItems s oid = some l)
    (hmem : (it, m) ∈ l)
    (hstock : m.stock < it.qty) :
    (finalize_order s oid now dOk).1 = s ∧
    (∃ ps, (finalize_order s oid now dOk).2 = .failed ps ∧ (m.name, m.stock) ∈ ps) ∧
    ((finalize_order s oid now dOk).1.orders.find? (fun x => x.id == oid)).map
        (fun x => x.status) = some "pending" := by
  have hmemf : (it, m) ∈ l.filter (fun p => p.2.stock < p.1.qty) := by
    refine List.mem_filter.mpr ⟨hmem, ?_⟩
    simpa using hstock
  have hmemp : (m.name, m.stock)
      ∈ (l.filter (fun p => p.2.stock < p.1.qty)).map (fun p => (p.2.name, p.2.stock)) := by
    exact List.mem_map.mpr ⟨(it, m), hmemf, rfl⟩
  have hne : (l.filter (fun p => p.2.stock < p.1.qty)).map
      (fun p => (p.2.name, p.2.stock)) ≠ [] :=
    List.ne_nil_of_mem hmemp
  have hie : ((l.filter (fun p => p.2.stock < p.1.qty)).map
      (fun p => (p.2.name, p.2.stock))).isEmpty = false := by
    rw [List.isEmpty_eq_false]
    exact hne
  have heq : finalize_order s oid now dOk
      = (s, .failed ((l.filter (fun p => p.2.stock < p.1.qty)).map
          (fun p => (p.2.name, p.2.stock)))) := by
    unfold finalize_order
    rw [ho, hj]
    simp only [hie, Bool.not_false, if_pos]
  refine ⟨by rw [heq], ⟨_, by rw [heq], hmemp⟩, ?_⟩
  rw [heq]
  show (s.orders.find? (fun x => x.id == oid)).map (fun x => x.status) = some "pending"
  rw [ho]
  simp [hstatus]

/-- C2 witness: a concrete pending one-item order asking for 10 units
of a medicine with stock 2 hits the failure path with the pair
(name, 2) reported. -/
theorem C2_witness :
    (finalize_order
        ⟨[⟨7, "Ibuprofen", 2, false⟩], [], [],
         [⟨1, 3, "pending", 1, "agent_chat", none⟩],
         [⟨1, 7, 10, none, none, some 30⟩], [], 2⟩ 1 50 true).1
      = ⟨[⟨7, "Ibuprofen", 2, false⟩], [], [],
         [⟨1, 3, "pending", 1, "agent_chat", none⟩],
         [⟨1, 7, 10, none, none, some 30⟩], [], 2⟩ ∧
    (∃ ps, (finalize_order
        ⟨[⟨7, "Ibuprofen", 2, false⟩], [], [],
         [⟨1, 3, "pending", 1, "agent_chat", none⟩],
         [⟨1, 7, 10, none, none, some 30⟩], [], 2⟩ 1 50 true).2
        = .failed ps ∧ ("Ibuprofen", 2) ∈ ps) ∧
    ((finalize_order
        ⟨[⟨7, "Ibuprofen", 2, false⟩], [], [],
         [⟨1, 3, "pending", 1, "agent_chat", none⟩],
         [⟨1, 7, 10, none, none, some 30⟩], [], 2⟩ 1 50 true).1.orders.find?
          (fun x => x.id == 1)).map (fun x => x.status) = some "pending" :=
  C2_finalize_insufficient_stock _ 1 50 true
    ⟨1, 3, "pending", 1, "agent_chat", none⟩
    [(⟨1, 7, 10, none, none, some 30⟩, ⟨7, "Ibuprofen", 2, false⟩)]
    ⟨1, 7, 10, none, none, some 30⟩ ⟨7, "Ibuprofen", 2, false⟩
    (by decide) (by decide) (by decide) (by decide) (by decide)

/-- C7 counterexample: on a concrete store, when the item-row insert
fails after the order row was inserted, the error propagates as an
uncaught store exception rather than a surfaced structured failure,
and a pending order row with an empty item list remains visible to
reads, contradicting the claimed all-or-nothing draft. -/
theorem C7_counterexample_partial_draft_visible :
    (create_order_draft ⟨[⟨1, "Aspirin", 5, false⟩], [⟨1, "u1"⟩], [], [], [], [], 1⟩
        1 [⟨1, 3, none, none, none⟩] "agent_chat" true false).2
      = .itemInsertRaised 1 ∧
    ((create_order_draft ⟨[⟨1, "Aspirin", 5, false⟩], [⟨1, "u1"⟩], [], [], [], [], 1⟩
        1 [⟨1, 3, none, none, none⟩] "agent_chat" true false).1.orders.map
      (fun o => (o.id, o.status))) = [(1, "pending")] ∧
    itemsOf (create_order_draft ⟨[⟨1, "Aspirin", 5, false⟩], [⟨1, "u1"⟩], [], [], [], [], 1⟩
        1 [⟨1, 3, none, none, none⟩] "agent_chat" true false).1 1 = [] := by
  refine ⟨rfl, rfl, rfl⟩

/-- C7 (amended): draft creation is atomic only in its first step. If
the order-row insert fails, a clean structured failure is returned and
the store is untouched; but if an item-row insert fails after the order
row was inserted, the uncaught exception propagates, the draft is not
discarded, and the pending order row remains visible with an empty item
list. When both inserts succeed the draft is complete. -/
theorem C7_draft_not_atomic (s : DBState) (pid : Nat) (items : List DraftItem)
    (channel : String) (iOk : Bool)
    (hfresh : ∀ it ∈ s.order_items, it.order_id ≠ s.nextOrderId) :
    create_order_draft s pid items channel false iOk = (s, .orderInsertFailed) ∧
    (create_order_draft s pid items channel true false).2
        = .itemInsertRaised s.nextOrderId ∧
    (create_order_draft s pid items channel true false).1.orders
        = s.orders ++ [⟨s.nextOrderId, pid, "pending", items.length, channel, none⟩] ∧
    (create_order_draft s pid items channel true false).1.order_items
        = s.order_items ∧
    itemsOf (create_order_draft s pid items channel true false).1 s.nextOrderId = [] ∧
    (create_order_draft s pid items channel true true).1.order_items
        = s.order_items ++ items.map (fun it =>
            (⟨s.nextOrderId, it.medicine_id, it.qty, it.dosage_text, it.frequency_per_day,
              some (it.days_supply.getD 30)⟩ : OrderItemRow)) := by
  refine ⟨rfl, rfl, rfl, rfl, ?_, rfl⟩
  show s.order_items.filter (fun it => it.order_id == s.nextOrderId) = []
  rw [List.filter_eq_nil_iff]
  intro it hit
  simpa using hfresh it hit

/-- C7 witness: the amended behaviour at a concrete store with one
pre-existing unrelated order item. -/
theorem C7_witness :
    create_order_draft ⟨[], [], [], [], [⟨3, 9, 1, none, none, some 30⟩], [], 4⟩
        2 [⟨9, 5, none, none, none⟩] "agent_chat" false true
      = (⟨[], [], [], [], [⟨3, 9, 1, none, none, some 30⟩], [], 4⟩, .orderInsertFailed) ∧
    (create_order_draft ⟨[], [], [], [], [⟨3, 9, 1, none, none, some 30⟩], [], 4⟩
        2 [⟨9, 5, none, none, none⟩] "agent_chat" true false).2
      = .itemInsertRaised 4 ∧
    (create_order_draft ⟨[], [], [], [], [⟨3, 9, 1, none, none, some 30⟩], [], 4⟩
        2 [⟨9, 5, none, none, none⟩] "agent_chat" true false).1.orders
      = [] ++ [⟨4, 2, "pending", 1, "agent_chat", none⟩] ∧
    (create_order_draft ⟨[], [], [], [], [⟨3, 9, 1, none, none, some 30⟩], [], 4⟩
        2 [⟨9, 5, none, none, none⟩] "agent_chat" true false).1.order_items
      = [⟨3, 9, 1, none, none, some 30⟩] ∧
    itemsOf (create_order_draft ⟨[], [], [], [], [⟨3, 9, 1, none, none, some 30⟩], [], 4⟩
        2 [⟨9, 5, none, none, none⟩] "agent_chat" true false).1 4 = [] ∧
    (create_order_draft ⟨[], [], [], [], [⟨3, 9, 1, none, none, some 30⟩], [], 4⟩
        2 [⟨9, 5, none, none, none⟩] "agent_chat" true true).1.order_items
      = [⟨3, 9, 1, none, none, some 30⟩]
        ++ ([⟨9, 5, none, none, none⟩] : List DraftItem).map (fun it =>
          (⟨4, it.medicine_id, it.qty, it.dosage_text, it.frequency_per_day,
            some (it.days_supply.getD 30)⟩ : OrderItemRow)) :=
  C7_draft_not_atomic _ 2 [⟨9, 5, none, none, none⟩] "agent_chat" true (by decide)

/-- C8 counterexample: a prescription-required medicine with zero stock
and no prescription on file. The order action returns the
insufficient-stock failure (the stock check runs before the
prescription check), so the outcome does not carry
needs_prescription=true even though the claim premises hold. -/
theorem C8_counterexample_stock_checked_first :
    run_order ⟨[⟨1, "Zopiclone", 0, true⟩], [⟨1, "u1"⟩], [], [], [], [], 1⟩
        "u1" "Zopiclone" 1 none none ⟨true, some 3, some 2, some "after food"⟩
        true true true 0
      = (⟨[⟨1, "Zopiclone", 0, true⟩], [⟨1, "u1"⟩], [], [], [], [], 1⟩,
         ⟨false, .noData, .insufficientStockMsg "Zopiclone" 0⟩) ∧
    RunData.noData ≠ RunData.needsPrescriptionData "Zopiclone" := by
  exact ⟨by decide, by decide⟩

/-- C8 (amended): for an order request that resolves to a
prescription-required medicine with enough stock for the requested
quantity, when prescription verification does not verify (in
particular when the patient has no prescription records at all), the
outcome is success=false with needs_prescription data for that
medicine, and the store is left unchanged: the draft step is never
invoked and no order row is created. The stock hypothesis is needed
because the source checks stock before the prescription, returning
insufficient-stock instead when it fails. -/
theorem C8_needs_prescription_blocks_draft (s : DBState) (user query : String)
    (qtyReq : Nat) (freqCtx : Option Nat) (dosageCtx : Option String)
    (oracle : VerifyResult) (oOk iOk dOk : Bool) (now : Nat)
    (pid : Nat) (med : Medicine)
    (hres : resolve_patient_id s user = some pid)
    (hsearch : (search_medicines s query 1).head? = some med)
    (hrx : med.prescription_required = true)
    (hstock : qtyReq ≤ med.stock)
    (hver : (verify_prescription s pid oracle).verified = false) :
    run_order s user query qtyReq freqCtx dosageCtx oracle oOk iOk dOk now
      = (s, ⟨false, .needsPrescriptionData med.name, .needsPrescriptionMsg med.name⟩) := by
  have hval : run_validate s user query qtyReq freqCtx dosageCtx oracle
      = (s, .needsPrescription med.name) := by
    unfold run_validate
    simp only [hres, hsearch]
    rw [if_neg (Nat.not_lt.mpr hstock)]
    rw [hrx]
    simp only [if_true]
    simp [hver]
  unfold run_order
  rw [hval]

/-- C8 witness: concrete store with a prescription-required medicine in
stock and an empty records table, hitting the needs-prescription
outcome with no order row created. -/
theorem C8_witness :
    run_order ⟨[⟨1, "Zolpidem", 5, true⟩], [⟨1, "u1"⟩], [], [], [], [], 1⟩
        "u1" "Zolpidem" 1 none none ⟨true, some 3, some 2, some "after food"⟩
        true true true 0
      = (⟨[⟨1, "Zolpidem", 5, true⟩], [⟨1, "u1"⟩], [], [], [], [], 1⟩,
         ⟨false, .needsPrescriptionData "Zolpidem", .needsPrescriptionMsg "Zolpidem"⟩) :=
  C8_needs_prescription_blocks_draft _ "u1" "Zolpidem" 1 none none
    ⟨true, some 3, some 2, some "after food"⟩ true true true 0 1
    ⟨1, "Zolpidem", 5, true⟩ (by decide) (by decide) (by decide) (by decide) (by decide)

theorem drafted_orders_find (s : DBState) (orow : OrderRow)
    (hid : (orow.id == s.nextOrderId) = true)
    (hfreshO : ∀ o ∈ s.orders, o.id ≠ s.nextOrderId) :
    (s.orders ++ [orow]).find? (fun o => o.id == s.nextOrderId) = some orow := by
  rw [find?_append_right _ _ _ (fun o ho => by simpa using hfreshO o ho)]
  simp [List.find?_cons, hid]

theorem drafted_join (s : DBState) (pid q : Nat)
    (freq : Option Nat) (dosage : Option String) (med : Medicine)
    (hfreshI : ∀ it ∈ s.order_items, it.order_id ≠ s.nextOrderId)
    (hfind : s.medicines.find? (fun m => m.id == med.id) = some med) :
    joinItems
        { s with
          orders := s.orders ++ [⟨s.nextOrderId, pid, "pending", 1, "agent_chat", none⟩]
          order_items := s.order_items ++ [⟨s.nextOrderId, med.id, q, dosage, freq, some 30⟩]
          nextOrderId := s.nextOrderId + 1 }
        s.nextOrderId
      = some [(⟨s.nextOrderId, med.id, q, dosage, freq, some 30⟩, med)] := by
  unfold joinItems itemsOf
  simp only
  rw [filter_append_left_nil _ _ _ (fun it hit => by simpa using hfreshI it hit)]
  simp [List.mapM, List.mapM.loop, hfind]

theorem finalize_drafted_insufficient (s : DBState) (pid q now : Nat) (dOk : Bool)
    (freq : Option Nat) (dosage : Option String) (med : Medicine)
    (hfreshO : ∀ o ∈ s.orders, o.id ≠ s.nextOrderId)
    (hfreshI : ∀ it ∈ s.order_items, it.order_id ≠ s.nextOrderId)
    (hfind : s.medicines.find? (fun m => m.id == med.id) = some med)
    (hlt : med.stock < q) :
    finalize_order
        { s with
          orders := s.orders ++ [⟨s.nextOrderId, pid, "pending", 1, "agent_chat", none⟩]
          order_items := s.order_items ++ [⟨s.nextOrderId, med.id, q, dosage, freq, some 30⟩]
          nextOrderId := s.nextOrderId + 1 }
        s.nextOrderId now dOk
      = ({ s with
          orders := s.orders ++ [⟨s.nextOrderId, pid, "pending", 1, "agent_chat", none⟩]
          order_items := s.order_items ++ [⟨s.nextOrderId, med.id, q, dosage, freq, some 30⟩]
          nextOrderId := s.nextOrderId + 1 },
        .failed [(med.name, med.stock)]) := by
  unfold finalize_order
  rw [show ({ s with
          orders := s.orders ++ [⟨s.nextOrderId, pid, "pending", 1, "agent_chat", none⟩]
          order_items := s.order_items ++ [⟨s.nextOrderId, med.id, q, dosage, freq, some 30⟩]
          nextOrderId := s.nextOrderId + 1 } : DBState).orders.find?
        (fun o => o.id == s.nextOrderId)
      = some ⟨s.nextOrderId, pid, "pending", 1, "agent_chat", none⟩ from
    drafted_orders_find s _ (by simp) hfreshO]
  rw [drafted_join s pid q freq dosage med hfreshI hfind]
  simp [hlt]

theorem finalize_drafted_fulfilled (s : DBState) (pid q now : Nat)
    (freq : Option Nat) (dosage : Option String) (med : Medicine)
    (hfreshO : ∀ o ∈ s.orders, o.id ≠ s.nextOrderId)
    (hfreshI : ∀ it ∈ s.order_items, it.order_id ≠ s.nextOrderId)
    (hfind : s.medicines.find? (fun m => m.id == med.id) = some med)
    (hle : q ≤ med.stock) :
    finalize_order
        { s with
          orders := s.orders ++ [⟨s.nextOrderId, pid, "pending", 1, "agent_chat", none⟩]
          order_items := s.order_items ++ [⟨s.nextOrderId, med.id, q, dosage, freq, some 30⟩]
          nextOrderId := s.nextOrderId + 1 }
        s.nextOrderId now true
      = ({ s with
          medicines := s.medicines.map (fun m =>
            if m.id == med.id then { m with stock := m.stock - q } else m)
          orders := s.orders ++ [⟨s.nextOrderId, pid, "fulfilled", 1, "agent_chat", some now⟩]
          order_items := s.order_items ++ [⟨s.nextOrderId, med.id, q, dosage, freq, some 30⟩]
          nextOrderId := s.nextOrderId + 1 },
        .fulfilled [(med.name, q)]) := by
  unfold finalize_order
  rw [show ({ s with
          orders := s.orders ++ [⟨s.nextOrderId, pid, "pending", 1, "agent_chat", none⟩]
          order_items := s.order_items ++ [⟨s.nextOrderId, med.id, q, dosage, freq, some 30⟩]
          nextOrderId := s.nextOrderId + 1 } : DBState).orders.find?
        (fun o => o.id == s.nextOrderId)
      = some ⟨s.nextOrderId, pid, "pending", 1, "agent_chat", none⟩ from
    drafted_orders_find s _ (by simp) hfreshO]
  rw [drafted_join s pid q freq dosage med hfreshI hfind]
  have hnlt : ¬ (med.stock < q) := Nat.not_lt.mpr hle
  simp only [List.filter_cons, List.filter_nil, decide_eq_true_eq, hnlt, if_false,
    List.map_nil, List.isEmpty_nil, Bool.not_true, Bool.false_eq_true, if_false,
    List.map_cons, List.foldl_cons, List.foldl_nil]
  rw [List.map_append]
  rw [map_if_id _ _ _ (fun o ho => by simpa using hfreshO o ho)]
  simp only [decrementStock]
  simp

theorem run_validate_ok_norx (s : DBState) (user query : String) (qtyReq : Nat)
    (freqCtx : Option Nat) (dosageCtx : Option String) (oracle : VerifyResult)
    (pid : Nat) (med : Medicine)
    (hres : resolve_patient_id s user = some pid)
    (hsearch : (search_medicines s query 1).head? = some med)
    (hrx : med.prescription_required = false)
    (hstock : qtyReq ≤ med.stock) :
    run_validate s user query qtyReq freqCtx dosageCtx oracle
      = (s, .ok pid med qtyReq freqCtx dosageCtx) := by
  unfold run_validate
  simp only [hres, hsearch]
  rw [if_neg (Nat.not_lt.mpr hstock)]
  rw [hrx]
  simp

theorem run_validate_ok_rx (s : DBState) (user query : String) (qtyReq vq : Nat)
    (freqCtx : Option Nat) (dosageCtx : Option String) (oracle : VerifyResult)
    (pid : Nat) (med : Medicine)
    (hres : resolve_patient_id s user = some pid)
    (hsearch : (search_medicines s query 1).head? = some med)
    (hrx : med.prescription_required = true)
    (hstock : qtyReq ≤ med.stock)
    (hv : (verify_prescription s pid oracle).verified = true)
    (hq : (verify_prescription s pid oracle).qty = some vq)
    (hfreq : truthyNat (mergedFreq freqCtx (verify_prescription s pid oracle)) = true)
    (hdos : truthyStr (mergedDosage dosageCtx (verify_prescription s pid oracle)) = true) :
    run_validate s user query qtyReq freqCtx dosageCtx oracle
      = (s, .ok pid med vq (mergedFreq freqCtx (verify_prescription s pid oracle))
          (mergedDosage dosageCtx (verify_prescription s pid oracle))) := by
  unfold run_validate
  simp only [hres, hsearch]
  rw [if_neg (Nat.not_lt.mpr hstock)]
  rw [hrx]
  simp [hv, hq, hfreq, hdos]

/-- C1: an order action for an in-stock medicine that needs no
prescription runs Validate, Draft and Finalize and ends with a
successful result whose order row has status fulfilled and carries the
finalize timestamp, and after the per-item decrement RPC the stock of
the ordered medicine is exactly the stock before the run minus the
requested quantity. The freshness hypotheses state that the serial
order id about to be assigned is not already used, and hfind that med
is the row of its id. -/
theorem C1_purchase_fulfills_and_decrements (s : DBState) (user query : String)
    (qty : Nat) (freqCtx : Option Nat) (dosageCtx : Option String)
    (oracle : VerifyResult) (now : Nat) (pid : Nat) (med : Medicine)
    (hres : resolve_patient_id s user = some pid)
    (hsearch : (search_medicines s query 1).head? = some med)
    (hrx : med.prescription_required = false)
    (hqty : qty ≤ med.stock)
    (hfind : s.medicines.find? (fun m => m.id == med.id) = some med)
    (hfreshI : ∀ it ∈ s.order_items, it.order_id ≠ s.nextOrderId)
    (hfreshO : ∀ o ∈ s.orders, o.id ≠ s.nextOrderId) :
    (run_order s user query qty freqCtx dosageCtx oracle true true true now).2.success
        = true ∧
    (run_order s user query qty freqCtx dosageCtx oracle true true true now).2.data
        = .finalizeData (.fulfilled [(med.name, qty)]) s.nextOrderId ∧
    (run_order s user query qty freqCtx dosageCtx oracle true true true now).1.orders.find?
        (fun o => o.id == s.nextOrderId)
        = some ⟨s.nextOrderId, pid, "fulfilled", 1, "agent_chat", some now⟩ ∧
    ((run_order s user query qty freqCtx dosageCtx oracle true true true now).1.medicines.find?
        (fun m => m.id == med.id)).map (fun m => m.stock)
        = some (med.stock - qty) := by
  have hval := run_validate_ok_norx s user query qty freqCtx dosageCtx oracle pid med
    hres hsearch hrx hqty
  have hdraft : create_order_draft s pid [⟨med.id, qty, freqCtx, dosageCtx, none⟩]
      "agent_chat" true true
      = ({ s with
          orders := s.orders ++ [⟨s.nextOrderId, pid, "pending", 1, "agent_chat", none⟩]
          order_items := s.order_items
            ++ [⟨s.nextOrderId, med.id, qty, dosageCtx, freqCtx, some 30⟩]
          nextOrderId := s.nextOrderId + 1 }, .ok s.nextOrderId) := rfl
  have hfin := finalize_drafted_fulfilled s pid qty now freqCtx dosageCtx med
    hfreshO hfreshI hfind hqty
  simp only [run_order, hval, hdraft, hfin]
  refine ⟨trivial, trivial, ?_, ?_⟩
  · exact drafted_orders_find s _ (by simp) hfreshO
  · rw [find?_map_decrement s.medicines med.id qty med hfind]
    rfl

/-- C1 witness: a concrete purchase of 3 units from stock 5 leaves a
fulfilled order and stock 2. -/
theorem C1_witness :
    (run_order ⟨[⟨1, "Aspirin", 5, false⟩], [⟨1, "u1"⟩], [], [], [], [], 1⟩
        "u1" "aspirin" 3 none none ⟨false, none, none, none⟩ true true true 100).2.success
        = true ∧
    (run_order ⟨[⟨1, "Aspirin", 5, false⟩], [⟨1, "u1"⟩], [], [], [], [], 1⟩
        "u1" "aspirin" 3 none none ⟨false, none, none, none⟩ true true true 100).2.data
        = .finalizeData (.fulfilled [("Aspirin", 3)]) 1 ∧
    (run_order ⟨[⟨1, "Aspirin", 5, false⟩], [⟨1, "u1"⟩], [], [], [], [], 1⟩
        "u1" "aspirin" 3 none none ⟨false, none, none, none⟩ true true true 100).1.orders.find?
        (fun o => o.id == 1)
        = some ⟨1, 1, "fulfilled", 1, "agent_chat", some 100⟩ ∧
    ((run_order ⟨[⟨1, "Aspirin", 5, false⟩], [⟨1, "u1"⟩], [], [], [], [], 1⟩
        "u1" "aspirin" 3 none none ⟨false, none, none, none⟩ true true true 100).1.medicines.find?
        (fun m => m.id == 1)).map (fun m => m.stock)
        = some (5 - 3) :=
  C1_purchase_fulfills_and_decrements _ "u1" "aspirin" 3 none none
    ⟨false, none, none, none⟩ 100 1 ⟨1, "Aspirin", 5, false⟩
    (by decide) (by decide) (by decide) (by decide) (by decide) (by decide) (by decide)

/-- C10: for an order on a prescription-required medicine with a
verified prescription and complete dosage information, the quantity
written into the drafted order item is the parsed prescription quantity
vq, which replaces the caller-requested quantity after the pre-draft
stock check already passed against the requested quantity; when vq
exceeds the checked stock, the draft is still created with quantity vq
and only the re-validation inside Finalize stops it, leaving the order
pending with the failed outcome reporting the available stock. -/
theorem C10_prescription_qty_overrides_checked_qty (s : DBState) (user query : String)
    (qtyReq vq : Nat) (freqCtx : Option Nat) (dosageCtx : Option String)
    (oracle : VerifyResult) (dOk : Bool) (now : Nat) (pid : Nat) (med : Medicine)
    (hres : resolve_patient_id s user = some pid)
    (hsearch : (search_medicines s query 1).head? = some med)
    (hrx : med.prescription_required = true)
    (hstock : qtyReq ≤ med.stock)
    (hv : (verify_prescription s pid oracle).verified = true)
    (hq : (verify_prescription s pid oracle).qty = some vq)
    (hfreq : truthyNat (mergedFreq freqCtx (verify_prescription s pid oracle)) = true)
    (hdos : truthyStr (mergedDosage dosageCtx (verify_prescription s pid oracle)) = true)
    (hfind : s.medicines.find? (fun m => m.id == med.id) = some med)
    (hfreshI : ∀ it ∈ s.order_items, it.order_id ≠ s.nextOrderId)
    (hfreshO : ∀ o ∈ s.orders, o.id ≠ s.nextOrderId)
    (hover : med.stock < vq) :
    (run_order s user query qtyReq freqCtx dosageCtx oracle true true dOk now).1.order_items
        = s.order_items ++ [⟨s.nextOrderId, med.id, vq,
            mergedDosage dosageCtx (verify_prescription s pid oracle),
            mergedFreq freqCtx (verify_prescription s pid oracle), some 30⟩] ∧
    (run_order s user query qtyReq freqCtx dosageCtx oracle true true dOk now).2.success
        = false ∧
    (run_order s user query qtyReq freqCtx dosageCtx oracle true true dOk now).2.data
        = .finalizeData (.failed [(med.name, med.stock)]) s.nextOrderId ∧
    ((run_order s user query qtyReq freqCtx dosageCtx oracle true true dOk now).1.orders.find?
        (fun o => o.id == s.nextOrderId)).map (fun o => o.status)
        = some "pending" := by
  have hval := run_validate_ok_rx s user query qtyReq vq freqCtx dosageCtx oracle pid med
    hres hsearch hrx hstock hv hq hfreq hdos
  have hdraft : create_order_draft s pid
      [⟨med.id, vq, mergedFreq freqCtx (verify_prescription s pid oracle),
        mergedDosage dosageCtx (verify_prescription s pid oracle), none⟩]
      "agent_chat" true true
      = ({ s with
          orders := s.orders ++ [⟨s.nextOrderId, pid, "pending", 1, "agent_chat", none⟩]
          order_items := s.order_items
            ++ [⟨s.nextOrderId, med.id, vq,
                mergedDosage dosageCtx (verify_prescription s pid oracle),
                mergedFreq freqCtx (verify_prescription s pid oracle), some 30⟩]
          nextOrderId := s.nextOrderId + 1 }, .ok s.nextOrderId) := rfl
  have hfin := finalize_drafted_insufficient s pid vq now dOk
    (mergedFreq freqCtx (verify_prescription s pid oracle))
    (mergedDosage dosageCtx (verify_prescription s pid oracle)) med
    hfreshO hfreshI hfind hover
  simp only [run_order, hval, hdraft, hfin]
  refine ⟨trivial, trivial, trivial, ?_⟩
  rw [drafted_orders_find s _ (by simp) hfreshO]
  rfl

/-- C10 witness: requested 3 of stock 5, prescription parses to
quantity 10; the draft carries 10 and Finalize fails with available
stock 5, leaving the order pending. -/
theorem C10_witness :
    (run_order ⟨[⟨1, "Tramadol", 5, true⟩], [⟨1, "u1"⟩],
        [⟨1, "prescription", some "Tramadol 10 tablets twice daily"⟩], [], [], [], 1⟩
        "u1" "Tramadol" 3 none none ⟨true, some 10, some 2, some "after food"⟩
        true true true 7).1.order_items
        = [] ++ [⟨1, 1, 10, some "after food", some 2, some 30⟩] ∧
    (run_order ⟨[⟨1, "Tramadol", 5, true⟩], [⟨1, "u1"⟩],
        [⟨1, "prescription", some "Tramadol 10 tablets twice daily"⟩], [], [], [], 1⟩
        "u1" "Tramadol" 3 none none ⟨true, some 10, some 2, some "after food"⟩
        true true true 7).2.success = false ∧
    (run_order ⟨[⟨1, "Tramadol", 5, true⟩], [⟨1, "u1"⟩],
        [⟨1, "prescription", some "Tramadol 10 tablets twice daily"⟩], [], [], [], 1⟩
        "u1" "Tramadol" 3 none none ⟨true, some 10, some 2, some "after food"⟩
        true true true 7).2.data
        = .finalizeData (.failed [("Tramadol", 5)]) 1 ∧
    ((run_order ⟨[⟨1, "Tramadol", 5, true⟩], [⟨1, "u1"⟩],
        [⟨1, "prescription", some "Tramadol 10 tablets twice daily"⟩], [], [], [], 1⟩
        "u1" "Tramadol" 3 none none ⟨true, some 10, some 2, some "after food"⟩
        true true true 7).1.orders.find?
        (fun o => o.id == 1)).map (fun o => o.status)
        = some "pending" :=
  C10_prescription_qty_overrides_checked_qty _ "u1" "Tramadol" 3 10 none none
    ⟨true, some 10, some 2, some "after food"⟩ true 7 1 ⟨1, "Tramadol", 5, true⟩
    (by decide) (by decide) (by decide) (by decide) (by decide) (by decide)
    (by decide) (by decide) (by decide) (by decide) (by decide) (by decide)

/-- C3: bug evidence. A purchase finalized by the order engine leaves
the order with status fulfilled and finalized_at set, its single item
has the default 30-day supply, and the predicted runout 100 + 30 lies
inside the 7-day horizon at now = 125; yet the refill predictor
returns no candidate and a refill run creates no alert, because its
query selects orders with status finalized, a status the engine never
writes. -/
theorem C3_refill_misses_engine_finalized_orders :
    ((run_order ⟨[⟨1, "Metformin", 50, false⟩], [⟨1, "u1"⟩], [], [], [], [], 1⟩
        "u1" "Metformin" 2 none none ⟨false, none, none, none⟩
        true true true 100).1.orders.map (fun o => (o.status, o.finalized_at)))
      = [("fulfilled", some 100)] ∧
    (itemsOf (run_order ⟨[⟨1, "Metformin", 50, false⟩], [⟨1, "u1"⟩], [], [], [], [], 1⟩
        "u1" "Metformin" 2 none none ⟨false, none, none, none⟩
        true true true 100).1 1).map (fun it => it.days_supply) = [some 30] ∧
    (125 ≤ 100 + 30 ∧ 100 + 30 ≤ 125 + 7) ∧
    get_refill_candidates
      (run_order ⟨[⟨1, "Metformin", 50, false⟩], [⟨1, "u1"⟩], [], [], [], [], 1⟩
        "u1" "Metformin" 2 none none ⟨false, none, none, none⟩
        true true true 100).1 1 7 125 = [] ∧
    (refill_run (run_order ⟨[⟨1, "Metformin", 50, false⟩], [⟨1, "u1"⟩], [], [], [], [], 1⟩
        "u1" "Metformin" 2 none none ⟨false, none, none, none⟩
        true true true 100).1 "u1" 7 125).1.refill_alerts = [] := by
  exact ⟨by decide, by decide, by decide, by decide, by decide⟩

/-- C6 counterexample: two refutations on concrete stores at
now = 125 with a 7-day horizon and runouts 130 and 125 (both inside).
First, when the two orders were finalized by the engine (status
fulfilled), the predictor emits no alert at all instead of exactly one.
Second, even with the status the predictor expects (finalized), when
the later-finalized order (timestamp 100, runout 130) is stored first,
the single emitted alert is keyed to it and not to the earlier-finalized
order (timestamp 95, runout 125). -/
theorem C6_counterexample_keying :
    (refill_run ⟨[⟨5, "Amlodipine", 40, false⟩], [⟨1, "u9"⟩], [],
        [⟨1, 1, "fulfilled", 1, "agent_chat", some 100⟩,
         ⟨2, 1, "fulfilled", 1, "agent_chat", some 95⟩],
        [⟨1, 5, 1, none, none, some 30⟩, ⟨2, 5, 1, none, none, some 30⟩], [], 3⟩
        "u9" 7 125).1.refill_alerts = [] ∧
    get_refill_candidates ⟨[⟨5, "Amlodipine", 40, false⟩], [⟨1, "u9"⟩], [],
        [⟨1, 1, "finalized", 1, "web", some 100⟩,
         ⟨2, 1, "finalized", 1, "web", some 95⟩],
        [⟨1, 5, 1, none, none, some 30⟩, ⟨2, 5, 1, none, none, some 30⟩], [], 3⟩
        1 7 125
      = [⟨5, "Amlodipine", 130, 5, 40⟩] ∧
    (refill_run ⟨[⟨5, "Amlodipine", 40, false⟩], [⟨1, "u9"⟩], [],
        [⟨1, 1, "finalized", 1, "web", some 100⟩,
         ⟨2, 1, "finalized", 1, "web", some 95⟩],
        [⟨1, 5, 1, none, none, some 30⟩, ⟨2, 5, 1, none, none, some 30⟩], [], 3⟩
        "u9" 7 125).1.refill_alerts
      = [⟨1, 5, 130, "pending"⟩] ∧
    (130 : Nat) ≠ 95 + 30 := by
  exact ⟨by decide, by decide, by decide, by decide⟩

/-- C6 (amended): given two orders for the same patient and medicine
that carry the status string finalized (the one the predictor queries,
which the engine never writes, see C3), both with runouts inside the
horizon, a single prediction run emits exactly one refill alert; it is
keyed to whichever order the store lists first, since the query imposes
no ordering on the finalize timestamp, and not necessarily to the
earlier-finalized order. -/
theorem C6_single_alert_keyed_to_first_stored (pid mid stock q1 q2 : Nat)
    (mname : String) (f1 f2 ds1 ds2 now h : Nat)
    (hin1 : now ≤ f1 + pyOrThirty (some ds1))
    (hin1b : f1 + pyOrThirty (some ds1) ≤ now + h)
    (hin2 : now ≤ f2 + pyOrThirty (some ds2))
    (hin2b : f2 + pyOrThirty (some ds2) ≤ now + h) :
    get_refill_candidates ⟨[⟨mid, mname, stock, false⟩], [⟨pid, "u9"⟩], [],
        [⟨1, pid, "finalized", 1, "web", some f1⟩, ⟨2, pid, "finalized", 1, "web", some f2⟩],
        [⟨1, mid, q1, none, none, some ds1⟩, ⟨2, mid, q2, none, none, some ds2⟩], [], 3⟩
        pid h now
      = [⟨mid, mname, f1 + pyOrThirty (some ds1),
          f1 + pyOrThirty (some ds1) - now, stock⟩] ∧
    (refill_run ⟨[⟨mid, mname, stock, false⟩], [⟨pid, "u9"⟩], [],
        [⟨1, pid, "finalized", 1, "web", some f1⟩, ⟨2, pid, "finalized", 1, "web", some f2⟩],
        [⟨1, mid, q1, none, none, some ds1⟩, ⟨2, mid, q2, none, none, some ds2⟩], [], 3⟩
        "u9" h now).1.refill_alerts
      = [⟨pid, mid, f1 + pyOrThirty (some ds1), "pending"⟩] := by
  have hcand : get_refill_candidates ⟨[⟨mid, mname, stock, false⟩], [⟨pid, "u9"⟩], [],
        [⟨1, pid, "finalized", 1, "web", some f1⟩, ⟨2, pid, "finalized", 1, "web", some f2⟩],
        [⟨1, mid, q1, none, none, some ds1⟩, ⟨2, mid, q2, none, none, some ds2⟩], [], 3⟩
        pid h now
      = [⟨mid, mname, f1 + pyOrThirty (some ds1),
          f1 + pyOrThirty (some ds1) - now, stock⟩] := by
    unfold get_refill_candidates itemsOf refillStep
    simp [hin1, hin1b]
  refine ⟨hcand, ?_⟩
  unfold refill_run resolve_patient_id
  simp [hcand, create_refill_alert]

/-- C6 witness: the amended behaviour at concrete timestamps, the
later-finalized order (100, runout 130) stored first and the
earlier-finalized one (95, runout 125) second, now = 125, horizon 7. -/
theorem C6_witness :
    get_refill_candidates ⟨[⟨5, "Amlodipine", 40, false⟩], [⟨1, "u9"⟩], [],
        [⟨1, 1, "finalized", 1, "web", some 100⟩, ⟨2, 1, "finalized", 1, "web", some 95⟩],
        [⟨1, 5, 1, none, none, some 30⟩, ⟨2, 5, 1, none, none, some 30⟩], [], 3⟩
        1 7 125
      = [⟨5, "Amlodipine", 100 + pyOrThirty (some 30),
          100 + pyOrThirty (some 30) - 125, 40⟩] ∧
    (refill_run ⟨[⟨5, "Amlodipine", 40, false⟩], [⟨1, "u9"⟩], [],
        [⟨1, 1, "finalized", 1, "web", some 100⟩, ⟨2, 1, "finalized", 1, "web", some 95⟩],
        [⟨1, 5, 1, none, none, some 30⟩, ⟨2, 5, 1, none, none, some 30⟩], [], 3⟩
        "u9" 7 125).1.refill_alerts
      = [⟨1, 5, 100 + pyOrThirty (some 30), "pending"⟩] :=
  C6_single_alert_keyed_to_first_stored 1 5 40 1 1 "Amlodipine" 100 95 30 30 125 7
    (by decide) (by decide) (by decide) (by decide)
